import Mathlib

/-!
Shallow embedding of the campus-dating backend's message-delivery core
(`backend/server.js`, socket.io variant): the Mongo document stores become
lists of records, each Express/socket handler becomes a pure function from
the request and the store state to a response, the updated store and the
list of identities whose socket room receives an emit.  The two awaited
effects a send can raise (persisting the message, looking the group up
during dispatch) are exposed as boolean outcome parameters so that the
handler's try/catch control flow is explicit.
-/

namespace CampusDating

/-- A JavaScript-like scalar value, for request fields that arrive untyped
(in particular the `isGroup` field of a send request, which clients pass as
a boolean, a string, or a number). -/
inductive JsVal where
  | str (s : String)
  | bool (b : Bool)
  | num (n : Int)
  | null
  | undef
deriving DecidableEq, Repr

/-- JavaScript truthiness, as applied by `!!isGroup` in the socket
`send-message` handler. -/
def JsVal.truthy : JsVal → Bool
  | .str s => !(s == "")
  | .bool b => b
  | .num n => !(n == 0)
  | .null => false
  | .undef => false

/-- The REST send handler's coercion `isGroup === 'true' || isGroup === true`. -/
def coerceIsGroupRest (v : JsVal) : Bool :=
  (v == .str "true") || (v == .bool true)

/-- A `User` document (`models/User.js`): phone is the identity key. -/
structure User where
  phone : String
  username : String
  password : String
  avatar : Option String
deriving DecidableEq, Repr

/-- A `Message` document (inline schema in `server.js`). -/
structure Message where
  id : Nat
  sender : String
  receiver : String
  text : String
  isGroup : Bool
  fileUrl : Option String
  senderAvatar : Option String
  createdAt : Nat
deriving DecidableEq, Repr

/-- A `Group` document: a group id mapped to its member identities. -/
structure Group where
  id : String
  name : String
  members : List String
deriving DecidableEq, Repr

/-- A `Status` document. -/
structure Status where
  user : String
  text : String
  fileUrl : Option String
  createdAt : Nat
deriving DecidableEq, Repr

/-- `User.findOne({ phone })`. -/
def findUserByPhone (users : List User) (phone : String) : Option User :=
  users.find? (fun u => u.phone == phone)

/-- `Group.findById(id)`. -/
def findGroupById (groups : List Group) (gid : String) : Option Group :=
  groups.find? (fun g => g.id == gid)

/-- `Message.findById(id)`. -/
def findMessageById (msgs : List Message) (id : Nat) : Option Message :=
  msgs.find? (fun m => m.id == id)

/-- The socket rooms emitted to by the REST send's dispatch block
(`server.js` 383-394): group members when the group is found and nonempty,
the receiver for a direct message, and always the sender's own room. -/
def restPushes (groups : List Group) (msg : Message) : List String :=
  (if msg.isGroup then
    match findGroupById groups msg.receiver with
    | some g => if g.members.isEmpty then [] else g.members
    | none => []
  else [msg.receiver]) ++ [msg.sender]

/-- The socket rooms emitted to by the socket `send-message` handler's
dispatch block (`server.js` 517-523). -/
def socketPushes (groups : List Group) (msg : Message) : List String :=
  (if msg.isGroup then
    match findGroupById groups msg.receiver with
    | some g => g.members
    | none => []
  else [msg.receiver]) ++ [msg.sender]

/-- The message document built and saved by `POST /api/messages`
(`server.js` 374-380): avatar snapshot from the sender's user record,
`isGroup` coerced by strict equality with `'true'`/`true`. -/
def mkRestMessage (users : List User) (sender receiver text : String)
    (isGroup : JsVal) (file : Option String) (newId now : Nat) : Message :=
  { id := newId, sender := sender, receiver := receiver, text := text,
    isGroup := coerceIsGroupRest isGroup,
    fileUrl := file.map (fun f => "/uploads/" ++ f),
    senderAvatar := (findUserByPhone users sender).bind (fun u => u.avatar),
    createdAt := now }

/-- Outcome of a REST send: HTTP status, resulting message store, rooms
pushed to, and the echoed message body on success. -/
structure RestSendOutcome where
  status : Nat
  stored : List Message
  pushes : List String
  body : Option Message
deriving DecidableEq, Repr

/-- `POST /api/messages` (`server.js` 369-401).  `saveOk` is the outcome of
`await msg.save()`; `groupFindOk` the outcome of `await Group.findById`
inside the dispatch block.  A throw at either point lands in the handler's
catch, which answers 500. -/
def postMessages (saveOk groupFindOk : Bool)
    (users : List User) (groups : List Group) (msgs : List Message)
    (sender receiver text : String) (isGroup : JsVal) (file : Option String)
    (newId now : Nat) : RestSendOutcome :=
  if sender == "" || receiver == "" then
    { status := 400, stored := msgs, pushes := [], body := none }
  else
    let msg := mkRestMessage users sender receiver text isGroup file newId now
    if !saveOk then
      { status := 500, stored := msgs, pushes := [], body := none }
    else if msg.isGroup && !groupFindOk then
      { status := 500, stored := msgs ++ [msg], pushes := [], body := none }
    else
      { status := 200, stored := msgs ++ [msg], pushes := restPushes groups msg,
        body := some msg }

/-- Outcome of a socket `send-message`: the handler sends no reply, so only
the store and the pushes are observable. -/
structure SocketSendOutcome where
  stored : List Message
  pushes : List String
deriving DecidableEq, Repr

/-- The message document built and saved by the socket `send-message`
handler: `new Message({sender, receiver, text, isGroup: !!isGroup})` —
no file, no avatar snapshot. -/
def mkSocketMessage (sender receiver text : String) (isGroup : JsVal)
    (newId now : Nat) : Message :=
  { id := newId, sender := sender, receiver := receiver, text := text,
    isGroup := isGroup.truthy, fileUrl := none, senderAvatar := none,
    createdAt := now }

/-- The socket `send-message` handler (`server.js` 512-525): builds the
message with `isGroup: !!isGroup` and no file or avatar snapshot; any
throw is swallowed by its catch (logged only). -/
def sendMessageSocket (saveOk groupFindOk : Bool)
    (groups : List Group) (msgs : List Message)
    (sender receiver text : String) (isGroup : JsVal)
    (newId now : Nat) : SocketSendOutcome :=
  let msg := mkSocketMessage sender receiver text isGroup newId now
  if !saveOk then
    { stored := msgs, pushes := [] }
  else if msg.isGroup && !groupFindOk then
    { stored := msgs ++ [msg], pushes := [] }
  else
    { stored := msgs ++ [msg], pushes := socketPushes groups msg }

/-- Result code of `DELETE /api/message/:id/:phone`. -/
inductive DeleteStatus where
  | notFound
  | forbidden
  | deleted
deriving DecidableEq, Repr

/-- Outcome of a delete: status, resulting store, and the rooms that
receive the `message-deleted` notice. -/
structure DeleteOutcome where
  status : DeleteStatus
  stored : List Message
  pushes : List String
deriving DecidableEq, Repr

/-- `DELETE /api/message/:id/:phone` (`server.js` 403-417).  `authUser` is
the identity the auth middleware decoded from the bearer token
(`req.user`); the handler compares the message's sender only against the
`:phone` path segment. -/
def deleteMessage (msgs : List Message) (id : Nat) (phone : String)
    (authUser : String) : DeleteOutcome :=
  match findMessageById msgs id with
  | none => { status := .notFound, stored := msgs, pushes := [] }
  | some m =>
    if !(m.sender == phone) then
      { status := .forbidden, stored := msgs, pushes := [] }
    else
      { status := .deleted, stored := msgs.eraseP (fun x => x.id == m.id),
        pushes := [m.receiver] }

/-- The conversation filter of `GET /api/messages/:user/:other`: the Mongo
`$or` of the two sender/receiver orientations. -/
def convMatch (user other : String) (m : Message) : Bool :=
  (m.sender == user && m.receiver == other) ||
  (m.sender == other && m.receiver == user)

/-- `GET /api/messages/:user/:other` (`server.js` 351-366):
`find($or).sort({createdAt: 1}).limit(1000)`. -/
def findConversation (msgs : List Message) (user other : String) : List Message :=
  ((msgs.filter (convMatch user other)).mergeSort
    (fun a b => a.createdAt ≤ b.createdAt)).take 1000

/-- `GET /status/feed` (`server.js` 433-441):
`find().sort({createdAt: -1}).limit(50)`. -/
def statusFeed (statuses : List Status) : List Status :=
  (statuses.mergeSort (fun a b => b.createdAt ≤ a.createdAt)).take 50

/-- The public projection `'phone username avatar'` used by contacts sync. -/
structure PublicUser where
  phone : String
  username : String
  avatar : Option String
deriving DecidableEq, Repr

/-- Projection of a user document onto the contacts-sync field list. -/
def toPublic (u : User) : PublicUser :=
  { phone := u.phone, username := u.username, avatar := u.avatar }

/-- `POST /api/contacts/sync` (`server.js` 338-348):
`User.find({phone: {$in: contacts}}, 'phone username avatar')`. -/
def contactsSync (users : List User) (contacts : List String) : List PublicUser :=
  (users.filter (fun u => contacts.contains u.phone)).map toPublic

/-- Replace the stored credential hash of the user(s) with the given phone;
used to state that contacts sync never depends on credential hashes. -/
def setPassword (users : List User) (phone newHash : String) : List User :=
  users.map (fun u => if u.phone == phone then { u with password := newHash } else u)

/-! ### Helper lemmas -/

/-- The REST dispatch block's extra `g.members.length` guard only skips an
empty `forEach`, so both dispatch blocks push to the same rooms. -/
theorem restPushes_eq_socketPushes (groups : List Group) (msg : Message) :
    restPushes groups msg = socketPushes groups msg := by
  unfold restPushes socketPushes
  cases msg.isGroup
  · simp
  · simp only [if_pos]
    cases hg : findGroupById groups msg.receiver with
    | none => rfl
    | some g =>
      cases hge : g.members.isEmpty
      · simp
      · simp [List.isEmpty_iff.mp hge]

theorem beq_eq_false_of_ne {s : String} (h : ¬ s = "") : (s == "") = false := by
  simpa using h

/-! ### C1 -/

/-- C1: when a group-flagged send's receiver resolves to a group in the
registry, both the REST dispatch and the socket dispatch push the message
to every member of the group and to the sender, with no assumption that
the sender is among the members. -/
theorem group_dispatch_reaches_members_and_sender
    (users : List User) (groups : List Group) (msgs : List Message)
    (sender gid text : String) (file : Option String) (newId now : Nat)
    (g : Group) (hs : ¬ sender = "") (hg : ¬ gid = "")
    (hfind : findGroupById groups gid = some g) :
    (∀ m ∈ g.members,
      m ∈ (postMessages true true users groups msgs sender gid text (.bool true) file newId now).pushes) ∧
    sender ∈ (postMessages true true users groups msgs sender gid text (.bool true) file newId now).pushes ∧
    (∀ m ∈ g.members,
      m ∈ (sendMessageSocket true true groups msgs sender gid text (.bool true) newId now).pushes) ∧
    sender ∈ (sendMessageSocket true true groups msgs sender gid text (.bool true) newId now).pushes := by
  have hrest :
      (postMessages true true users groups msgs sender gid text (.bool true) file newId now).pushes =
        g.members ++ [sender] := by
    simp [postMessages, beq_eq_false_of_ne hs, beq_eq_false_of_ne hg,
      restPushes_eq_socketPushes, socketPushes, mkRestMessage, coerceIsGroupRest, hfind]
  have hsock :
      (sendMessageSocket true true groups msgs sender gid text (.bool true) newId now).pushes =
        g.members ++ [sender] := by
    simp [sendMessageSocket, mkSocketMessage, socketPushes, JsVal.truthy, hfind]
  refine ⟨?_, ?_, ?_, ?_⟩
  · intro m hm; rw [hrest]; exact List.mem_append_left _ hm
  · rw [hrest]; exact List.mem_append_right _ (List.mem_singleton.mpr rfl)
  · intro m hm; rw [hsock]; exact List.mem_append_left _ hm
  · rw [hsock]; exact List.mem_append_right _ (List.mem_singleton.mpr rfl)

/-- C1 witness: a concrete three-member group. -/
theorem group_dispatch_reaches_members_and_sender_inst :
    "u2" ∈ (postMessages true true [] [⟨"g1", "Team", ["u1", "u2", "u3"]⟩] []
      "alice" "g1" "hey" (.bool true) none 1 0).pushes ∧
    "alice" ∈ (postMessages true true [] [⟨"g1", "Team", ["u1", "u2", "u3"]⟩] []
      "alice" "g1" "hey" (.bool true) none 1 0).pushes := by
  have h := group_dispatch_reaches_members_and_sender [] [⟨"g1", "Team", ["u1", "u2", "u3"]⟩] []
    "alice" "g1" "hey" none 1 0 ⟨"g1", "Team", ["u1", "u2", "u3"]⟩
    (by decide) (by decide) (by rfl)
  exact ⟨h.1 "u2" (by decide), h.2.1⟩

/-! ### C2 -/

/-- C2 counterexample: with an empty group registry, a group-flagged send
to the unknown id `"g404"` still pushes to the sender's room — the claim
that such a send "produces no live pushes to any channel" is false. -/
theorem nonexistent_group_send_cex :
    (postMessages true true [] [] [] "alice" "g404" "hi" (.bool true) none 1 0).pushes = ["alice"] ∧
    ¬ (postMessages true true [] [] [] "alice" "g404" "hi" (.bool true) none 1 0).pushes = [] := by
  constructor
  · rfl
  · decide

/-- C2 amended: a group-flagged send whose receiver matches no group
persists the message (retrievable by id) and its only live push is the
echo to the sender's room, on both send paths. -/
theorem nonexistent_group_send_persists_echo
    (users : List User) (groups : List Group) (msgs : List Message)
    (sender gid text : String) (file : Option String) (newId now : Nat)
    (hs : ¬ sender = "") (hg : ¬ gid = "")
    (hfresh : findMessageById msgs newId = none)
    (hfind : findGroupById groups gid = none) :
    (postMessages true true users groups msgs sender gid text (.bool true) file newId now).pushes = [sender] ∧
    findMessageById
      (postMessages true true users groups msgs sender gid text (.bool true) file newId now).stored
      newId = some (mkRestMessage users sender gid text (.bool true) file newId now) ∧
    (sendMessageSocket true true groups msgs sender gid text (.bool true) newId now).pushes = [sender] := by
  refine ⟨?_, ?_, ?_⟩
  · simp [postMessages, beq_eq_false_of_ne hs, beq_eq_false_of_ne hg,
      restPushes, mkRestMessage, coerceIsGroupRest, hfind]
  · simp only [findMessageById] at hfresh
    simp [postMessages, beq_eq_false_of_ne hs, beq_eq_false_of_ne hg,
      findMessageById, mkRestMessage, coerceIsGroupRest, List.find?_append, hfresh]
  · simp [sendMessageSocket, mkSocketMessage, socketPushes, JsVal.truthy, hfind]

/-- C2 amended, witness. -/
theorem nonexistent_group_send_persists_echo_inst :
    (postMessages true true [] [] [] "bob" "g404" "yo" (.bool true) none 7 3).pushes = ["bob"] ∧
    findMessageById (postMessages true true [] [] [] "bob" "g404" "yo" (.bool true) none 7 3).stored 7 =
      some (mkRestMessage [] "bob" "g404" "yo" (.bool true) none 7 3) := by
  have h := nonexistent_group_send_persists_echo [] [] [] "bob" "g404" "yo" none 7 3
    (by decide) (by decide) (by rfl) (by rfl)
  exact ⟨h.1, h.2.1⟩

/-! ### C3 -/

/-- C3 counterexample: a group-flagged REST send whose persistence
succeeds (the message is in the store) but whose dispatch group lookup
throws answers HTTP 500, not success — refuting the claim that dispatch
failure after successful persistence still returns success. -/
theorem dispatch_failure_send_cex :
    (postMessages true false [] [] [] "alice" "g1" "hi" (.bool true) none 1 0).status = 500 ∧
    ¬ (postMessages true false [] [] [] "alice" "g1" "hi" (.bool true) none 1 0).stored = [] ∧
    ¬ (postMessages true false [] [] [] "alice" "g1" "hi" (.bool true) none 1 0).status = 200 := by
  refine ⟨rfl, by decide, by decide⟩

/-- C3 amended: on the REST path, persistence failure aborts before
dispatch (store unchanged, no pushes) and reports failure (500); if
persistence succeeds and the dispatch group lookup then fails, the REST
path also reports failure (500) to the caller although the message
remains persisted (and no pushes occur).  On the socket path failures are
swallowed entirely: persistence failure aborts before dispatch with no
report of any kind, and dispatch failure leaves the message persisted
with no pushes and no report. -/
theorem send_failure_reporting
    (gOk : Bool) (users : List User) (groups : List Group) (msgs : List Message)
    (sender receiver text : String) (isGroup : JsVal) (file : Option String)
    (newId now : Nat) (hs : ¬ sender = "") (hr : ¬ receiver = "") :
    ((postMessages false gOk users groups msgs sender receiver text isGroup file newId now).status = 500 ∧
     (postMessages false gOk users groups msgs sender receiver text isGroup file newId now).stored = msgs ∧
     (postMessages false gOk users groups msgs sender receiver text isGroup file newId now).pushes = []) ∧
    (coerceIsGroupRest isGroup = true →
      (postMessages true false users groups msgs sender receiver text isGroup file newId now).status = 500 ∧
      (postMessages true false users groups msgs sender receiver text isGroup file newId now).stored =
        msgs ++ [mkRestMessage users sender receiver text isGroup file newId now] ∧
      (postMessages true false users groups msgs sender receiver text isGroup file newId now).pushes = []) ∧
    ((sendMessageSocket false gOk groups msgs sender receiver text isGroup newId now).stored = msgs ∧
     (sendMessageSocket false gOk groups msgs sender receiver text isGroup newId now).pushes = []) ∧
    (isGroup.truthy = true →
      (sendMessageSocket true false groups msgs sender receiver text isGroup newId now).stored =
        msgs ++ [mkSocketMessage sender receiver text isGroup newId now] ∧
      (sendMessageSocket true false groups msgs sender receiver text isGroup newId now).pushes = []) := by
  refine ⟨?_, ?_, ?_, ?_⟩
  · simp [postMessages, beq_eq_false_of_ne hs, beq_eq_false_of_ne hr]
  · intro hgrp
    simp [postMessages, beq_eq_false_of_ne hs, beq_eq_false_of_ne hr, mkRestMessage, hgrp]
  · simp [sendMessageSocket]
  · intro hgrp
    simp [sendMessageSocket, mkSocketMessage, hgrp]

/-- C3 amended, witness. -/
theorem send_failure_reporting_inst :
    (postMessages false true [] [] [] "alice" "bob" "hi" (.bool false) none 1 0).status = 500 ∧
    (postMessages true false [] [] [] "alice" "g1" "hi" (.bool true) none 1 0).stored =
      [] ++ [mkRestMessage [] "alice" "g1" "hi" (.bool true) none 1 0] := by
  have h1 := send_failure_reporting true [] [] [] "alice" "bob" "hi" (.bool false) none 1 0
    (by decide) (by decide)
  have h2 := send_failure_reporting true [] [] [] "alice" "g1" "hi" (.bool true) none 1 0
    (by decide) (by decide)
  exact ⟨h1.1.1, (h2.2.1 (by decide)).2.1⟩

/-! ### C10 -/

/-- C10: the REST path persists `isGroup = true` exactly when the request
field is the boolean `true` or the string `'true'`; for values such as
`'True'`, `'1'` or the number `1` the message is persisted with
`isGroup = false` and dispatched as a direct message (pushed to the
receiver's room and the sender's room only). -/
theorem rest_isGroup_coercion
    (users : List User) (groups : List Group) (msgs : List Message)
    (sender receiver text : String) (v : JsVal) (file : Option String)
    (newId now : Nat) (hs : ¬ sender = "") (hr : ¬ receiver = "") :
    ((mkRestMessage users sender receiver text v file newId now).isGroup = true ↔
      (v = .str "true" ∨ v = .bool true)) ∧
    ((v = .str "True" ∨ v = .str "1" ∨ v = .num 1) →
      (mkRestMessage users sender receiver text v file newId now).isGroup = false ∧
      (postMessages true true users groups msgs sender receiver text v file newId now).pushes =
        [receiver, sender]) := by
  constructor
  · simp [mkRestMessage, coerceIsGroupRest]
  · intro hv
    have hfalse : coerceIsGroupRest v = false := by
      rcases hv with h | h | h <;> subst h <;> rfl
    constructor
    · simp [mkRestMessage, hfalse]
    · simp [postMessages, beq_eq_false_of_ne hs, beq_eq_false_of_ne hr,
        restPushes, mkRestMessage, hfalse]

/-- C10 witness. -/
theorem rest_isGroup_coercion_inst :
    ((mkRestMessage [] "alice" "bob" "hi" (.str "1") none 1 0).isGroup = false) ∧
    (postMessages true true [] [] [] "alice" "bob" "hi" (.str "1") none 1 0).pushes =
      ["bob", "alice"] := by
  have h := rest_isGroup_coercion [] [] [] "alice" "bob" "hi" (.str "1") none 1 0
    (by decide) (by decide)
  exact h.2 (by decide)

/-! ### C4 -/

/-- After `deleteOne` removes the found document, no document with that id
remains, provided the store's ids are distinct (Mongo's `_id` invariant). -/
theorem findMessageById_eraseP_self
    (msgs : List Message) (id : Nat)
    (hnodup : (msgs.map Message.id).Nodup) :
    findMessageById (msgs.eraseP (fun x => x.id == id)) id = none := by
  induction msgs with
  | nil => rfl
  | cons x xs ih =>
    simp only [List.map_cons, List.nodup_cons] at hnodup
    by_cases hx : x.id = id
    · rw [List.eraseP_cons_of_pos (by simp [hx])]
      apply List.find?_eq_none.mpr
      intro y hy
      simp only [beq_iff_eq]
      intro hyid
      exact hnodup.1 (by rw [hx, ← hyid]; exact List.mem_map_of_mem Message.id hy)
    · rw [List.eraseP_cons_of_neg (by simpa using hx)]
      rw [findMessageById, List.find?_cons_of_neg _ (by simpa using hx)]
      exact ih hnodup.2

/-- C4: in a store with distinct message ids, deleting as a non-sender
fails with Forbidden and leaves the record fetchable; deleting as the
sender removes it so a subsequent fetch by id finds nothing; deleting an
absent id fails with NotFound and changes nothing. -/
theorem deleteMessage_spec
    (msgs : List Message) (id : Nat) (r authUser : String)
    (hnodup : (msgs.map Message.id).Nodup) :
    (∀ m, findMessageById msgs id = some m →
      (¬ r = m.sender →
        deleteMessage msgs id r authUser =
          { status := .forbidden, stored := msgs, pushes := [] } ∧
        findMessageById (deleteMessage msgs id r authUser).stored id = some m) ∧
      (r = m.sender →
        (deleteMessage msgs id r authUser).status = .deleted ∧
        findMessageById (deleteMessage msgs id r authUser).stored id = none)) ∧
    (findMessageById msgs id = none →
      deleteMessage msgs id r authUser =
        { status := .notFound, stored := msgs, pushes := [] }) := by
  constructor
  · intro m hm
    have hmid : m.id = id := by simpa using List.find?_some hm
    constructor
    · intro hne
      have hsend : (m.sender == r) = false := by
        simp only [beq_eq_false_iff_ne, ne_eq]
        exact fun h => hne h.symm
      constructor
      · simp [deleteMessage, hm, hsend]
      · simp [deleteMessage, hm, hsend]
    · intro heq
      have hsend : (m.sender == r) = true := by simp [heq]
      constructor
      · simp [deleteMessage, hm, hsend]
      · simp only [deleteMessage, hm, hsend, Bool.not_true, Bool.false_eq_true,
          if_false]
        rw [hmid]
        exact findMessageById_eraseP_self msgs id hnodup
  · intro hnone
    simp [deleteMessage, hnone]

/-- C4 witness: a one-message store exercised in all three cases. -/
theorem deleteMessage_spec_inst :
    (deleteMessage [⟨1, "alice", "bob", "hi", false, none, none, 0⟩] 1 "eve" "tok").status =
      .forbidden ∧
    (deleteMessage [⟨1, "alice", "bob", "hi", false, none, none, 0⟩] 1 "alice" "tok").status =
      .deleted ∧
    findMessageById
      (deleteMessage [⟨1, "alice", "bob", "hi", false, none, none, 0⟩] 1 "alice" "tok").stored 1 =
      none ∧
    (deleteMessage [⟨1, "alice", "bob", "hi", false, none, none, 0⟩] 2 "alice" "tok").status =
      .notFound := by
  have h1 := deleteMessage_spec [⟨1, "alice", "bob", "hi", false, none, none, 0⟩] 1 "eve" "tok"
    (by decide)
  have h2 := deleteMessage_spec [⟨1, "alice", "bob", "hi", false, none, none, 0⟩] 1 "alice" "tok"
    (by decide)
  have h3 := deleteMessage_spec [⟨1, "alice", "bob", "hi", false, none, none, 0⟩] 2 "alice" "tok"
    (by decide)
  refine ⟨?_, ?_, ?_, ?_⟩
  · have := (h1.1 ⟨1, "alice", "bob", "hi", false, none, none, 0⟩ (by rfl)).1 (by decide)
    rw [this.1]
  · exact ((h2.1 ⟨1, "alice", "bob", "hi", false, none, none, 0⟩ (by rfl)).2 rfl).1
  · exact ((h2.1 ⟨1, "alice", "bob", "hi", false, none, none, 0⟩ (by rfl)).2 rfl).2
  · rw [h3.2 (by rfl)]

/-! ### C9 -/

/-- C9: the delete handler's ownership check reads only the caller-chosen
path identity, never the identity decoded from the bearer token: two
requesters with different token identities get identical outcome and state
for the same request, and any token identity succeeds in deleting once the
path carries the message's sender. -/
theorem delete_ignores_token_identity
    (msgs : List Message) (id : Nat) (phone tok1 tok2 : String) :
    deleteMessage msgs id phone tok1 = deleteMessage msgs id phone tok2 ∧
    (∀ m, findMessageById msgs id = some m → m.sender = phone →
      (deleteMessage msgs id phone tok1).status = .deleted) := by
  constructor
  · rfl
  · intro m hm hsend
    simp [deleteMessage, hm, hsend]

/-- C9 witness: the attacker's token identity `"mallory"` deletes Alice's
message by naming Alice in the path. -/
theorem delete_ignores_token_identity_inst :
    deleteMessage [⟨1, "alice", "bob", "hi", false, none, none, 0⟩] 1 "alice" "mallory" =
      deleteMessage [⟨1, "alice", "bob", "hi", false, none, none, 0⟩] 1 "alice" "alice" ∧
    (deleteMessage [⟨1, "alice", "bob", "hi", false, none, none, 0⟩] 1 "alice" "mallory").status =
      .deleted := by
  have h := delete_ignores_token_identity [⟨1, "alice", "bob", "hi", false, none, none, 0⟩]
    1 "alice" "mallory" "alice"
  exact ⟨h.1, h.2 ⟨1, "alice", "bob", "hi", false, none, none, 0⟩ (by rfl) rfl⟩

/-! ### C5 -/

/-- C5 counterexample: the two send paths are not equivalent.  With the
sender registered with an avatar, the REST send persists the avatar
snapshot while the socket send persists none; and for the payload value
`'false'` the two `isGroup` coercions disagree, so the recipient sets
differ too. -/
theorem send_paths_equivalence_cex :
    ¬ (postMessages true true [⟨"alice", "Alice", "h", some "/uploads/a.png"⟩] [] []
        "alice" "bob" "hi" (.bool false) none 1 0).stored =
      (sendMessageSocket true true [] [] "alice" "bob" "hi" (.bool false) 1 0).stored ∧
    ¬ (postMessages true true [] [] [] "alice" "g1" "hi" (.str "false") none 1 0).pushes =
      (sendMessageSocket true true [] [] "alice" "g1" "hi" (.str "false") 1 0).pushes := by
  constructor <;> decide

/-- C5 amended: for a payload whose `isGroup` is an actual boolean (where
the REST coercion and the socket truthiness agree), the two send paths
persist the same sender, receiver, text and `isGroup` and push to the same
rooms; they differ in that the socket path stores no avatar snapshot and
no file reference, while the REST path snapshots the sender's avatar.  For
non-boolean `isGroup` values the coercions may disagree. -/
theorem send_paths_agreement
    (users : List User) (groups : List Group) (msgs : List Message)
    (sender receiver text : String) (b : Bool) (newId now : Nat)
    (hs : ¬ sender = "") (hr : ¬ receiver = "") :
    (postMessages true true users groups msgs sender receiver text (.bool b) none newId now).pushes =
      (sendMessageSocket true true groups msgs sender receiver text (.bool b) newId now).pushes ∧
    (postMessages true true users groups msgs sender receiver text (.bool b) none newId now).stored =
      msgs ++ [mkRestMessage users sender receiver text (.bool b) none newId now] ∧
    (sendMessageSocket true true groups msgs sender receiver text (.bool b) newId now).stored =
      msgs ++ [{ mkRestMessage users sender receiver text (.bool b) none newId now with
                 senderAvatar := none, fileUrl := none }] := by
  have hc : coerceIsGroupRest (.bool b) = b := by cases b <;> rfl
  refine ⟨?_, ?_, ?_⟩
  · simp [postMessages, sendMessageSocket, mkSocketMessage, beq_eq_false_of_ne hs,
      beq_eq_false_of_ne hr, mkRestMessage, hc, JsVal.truthy,
      restPushes_eq_socketPushes, socketPushes]
  · simp [postMessages, beq_eq_false_of_ne hs, beq_eq_false_of_ne hr, mkRestMessage, hc]
  · simp [sendMessageSocket, mkSocketMessage, JsVal.truthy, mkRestMessage, hc]

/-- C5 amended, witness. -/
theorem send_paths_agreement_inst :
    (postMessages true true [⟨"alice", "Alice", "h", some "/uploads/a.png"⟩] [] []
      "alice" "bob" "hi" (.bool false) none 1 0).pushes =
      (sendMessageSocket true true [] [] "alice" "bob" "hi" (.bool false) 1 0).pushes ∧
    (sendMessageSocket true true [] [] "alice" "bob" "hi" (.bool false) 1 0).stored =
      [] ++ [{ mkRestMessage [⟨"alice", "Alice", "h", some "/uploads/a.png"⟩]
               "alice" "bob" "hi" (.bool false) none 1 0 with
               senderAvatar := none, fileUrl := none }] := by
  have h := send_paths_agreement [⟨"alice", "Alice", "h", some "/uploads/a.png"⟩] [] []
    "alice" "bob" "hi" false 1 0 (by decide) (by decide)
  exact ⟨h.1, h.2.2⟩

/-! ### C6 -/

/-- C6: the conversation fetch returns only stored messages between the
two identities (in either orientation), at most 1000 of them, in ascending
creation-time order; and whenever at most 1000 messages match, every
matching stored message is returned. -/
theorem findConversation_spec (msgs : List Message) (user other : String) :
    (∀ m ∈ findConversation msgs user other, m ∈ msgs ∧ convMatch user other m = true) ∧
    (findConversation msgs user other).length ≤ 1000 ∧
    (findConversation msgs user other).Pairwise (fun a b => a.createdAt ≤ b.createdAt) ∧
    ((msgs.filter (convMatch user other)).length ≤ 1000 →
      ∀ m ∈ msgs, convMatch user other m = true → m ∈ findConversation msgs user other) := by
  refine ⟨?_, ?_, ?_, ?_⟩
  · intro m hm
    have h1 : m ∈ (msgs.filter (convMatch user other)).mergeSort
        (fun a b => a.createdAt ≤ b.createdAt) := (List.take_sublist _ _).subset hm
    have h2 := List.mem_mergeSort.mp h1
    exact List.mem_filter.mp h2
  · exact List.length_take_le _ _
  · apply List.Pairwise.sublist (List.take_sublist _ _)
    have hsorted := @List.sorted_mergeSort Message
      (fun a b => decide (a.createdAt ≤ b.createdAt))
      (fun a b c hab hbc => by
        simp only [decide_eq_true_eq] at *
        omega)
      (fun a b => by
        rcases Nat.le_total a.createdAt b.createdAt with h | h <;> simp [h])
      (msgs.filter (convMatch user other))
    exact hsorted.imp (fun h => of_decide_eq_true h)
  · intro hlen m hm hmatch
    have hmem : m ∈ msgs.filter (convMatch user other) := List.mem_filter.mpr ⟨hm, hmatch⟩
    rw [findConversation, List.take_of_length_le]
    · exact List.mem_mergeSort.mpr hmem
    · rw [List.length_mergeSort]
      exact hlen

/-- C6 witness: a three-message store where one message is off-topic. -/
theorem findConversation_spec_inst :
    (⟨2, "b", "a", "reply", false, none, none, 2⟩ : Message) ∈
      findConversation [⟨1, "a", "b", "x", false, none, none, 5⟩,
        ⟨2, "b", "a", "reply", false, none, none, 2⟩,
        ⟨3, "c", "d", "other", false, none, none, 1⟩] "a" "b" ∧
    (findConversation [⟨1, "a", "b", "x", false, none, none, 5⟩,
        ⟨2, "b", "a", "reply", false, none, none, 2⟩,
        ⟨3, "c", "d", "other", false, none, none, 1⟩] "a" "b").length ≤ 1000 := by
  have h := findConversation_spec [⟨1, "a", "b", "x", false, none, none, 5⟩,
    ⟨2, "b", "a", "reply", false, none, none, 2⟩,
    ⟨3, "c", "d", "other", false, none, none, 1⟩] "a" "b"
  exact ⟨h.2.2.2 (by decide) _ (by decide) (by decide), h.2.1⟩

/-! ### C7 -/

/-- C7 counterexample: with two stored statuses sharing a creation time,
the feed is not strictly descending by creation time — consecutive entries
are equal, refuting the claim for this store state. -/
theorem statusFeed_strict_cex :
    ¬ (statusFeed [⟨"a", "", none, 5⟩, ⟨"b", "", none, 5⟩]).Pairwise
        (fun x y => y.createdAt < x.createdAt) := by
  have hfeed : statusFeed [⟨"a", "", none, 5⟩, ⟨"b", "", none, 5⟩] =
      [⟨"a", "", none, 5⟩, ⟨"b", "", none, 5⟩] := by
    rw [statusFeed, List.mergeSort_of_sorted (by decide)]
    rfl
  rw [hfeed]
  simp [List.pairwise_cons]

/-- C7 amended: for every store state the feed returns at most 50 entries
in non-increasing creation-time order, and it is strictly descending
whenever the stored creation times are pairwise distinct. -/
theorem statusFeed_spec (statuses : List Status) :
    (statusFeed statuses).length ≤ 50 ∧
    (statusFeed statuses).Pairwise (fun a b => b.createdAt ≤ a.createdAt) ∧
    ((statuses.map Status.createdAt).Nodup →
      (statusFeed statuses).Pairwise (fun a b => b.createdAt < a.createdAt)) := by
  have hsorted : (statusFeed statuses).Pairwise (fun a b => b.createdAt ≤ a.createdAt) := by
    apply List.Pairwise.sublist (List.take_sublist _ _)
    have h := @List.sorted_mergeSort Status
      (fun a b => decide (b.createdAt ≤ a.createdAt))
      (fun a b c hab hbc => by
        simp only [decide_eq_true_eq] at *
        omega)
      (fun a b => by
        rcases Nat.le_total a.createdAt b.createdAt with h | h <;> simp [h])
      statuses
    exact h.imp (fun h => of_decide_eq_true h)
  refine ⟨List.length_take_le _ _, hsorted, ?_⟩
  · intro hnodup
    have hne : statuses.Pairwise (fun a b => a.createdAt ≠ b.createdAt) :=
      List.pairwise_map.mp hnodup
    have hperm := List.mergeSort_perm statuses
      (fun a b => decide (b.createdAt ≤ a.createdAt))
    have hne2 := (hperm.pairwise_iff (fun h => Ne.symm h)).mpr hne
    have hneF : (statusFeed statuses).Pairwise (fun a b => a.createdAt ≠ b.createdAt) :=
      List.Pairwise.sublist (List.take_sublist _ _) hne2
    exact (hsorted.and hneF).imp (fun h => lt_of_le_of_ne h.1 h.2.symm)

/-- C7 amended, witness: distinct creation times give a strict feed. -/
theorem statusFeed_spec_inst :
    (statusFeed [⟨"a", "", none, 1⟩, ⟨"b", "", none, 2⟩]).length ≤ 50 ∧
    (statusFeed [⟨"a", "", none, 1⟩, ⟨"b", "", none, 2⟩]).Pairwise
      (fun a b => b.createdAt < a.createdAt) := by
  have h := statusFeed_spec [⟨"a", "", none, 1⟩, ⟨"b", "", none, 2⟩]
  exact ⟨h.1, h.2.2 (by decide)⟩

/-! ### C8 -/

/-- C8: contacts sync returns records exactly for candidate identities
that are registered, each record is the public projection (phone,
username, avatar) of a stored user, and the response is invariant under
any change of any user's credential hash — the hash never influences,
let alone appears in, the response. -/
theorem contactsSync_spec (users : List User) (contacts : List String) :
    (∀ r ∈ contactsSync users contacts,
      r.phone ∈ contacts ∧ ∃ u ∈ users, toPublic u = r) ∧
    (∀ c ∈ contacts, ∀ u ∈ users, u.phone = c →
      ∃ r ∈ contactsSync users contacts, r.phone = c) ∧
    (∀ phone newHash,
      contactsSync (setPassword users phone newHash) contacts = contactsSync users contacts) := by
  refine ⟨?_, ?_, ?_⟩
  · intro r hr
    rcases List.mem_map.mp hr with ⟨u, hu, hru⟩
    have h2 := List.mem_filter.mp hu
    refine ⟨?_, u, h2.1, hru⟩
    rw [← hru]
    simpa [toPublic] using h2.2
  · intro c hc u hu huc
    refine ⟨toPublic u, ?_, ?_⟩
    · exact List.mem_map_of_mem _ (List.mem_filter.mpr ⟨hu, by simpa [huc] using hc⟩)
    · simpa [toPublic] using huc
  · intro phone newHash
    unfold contactsSync setPassword
    induction users with
    | nil => rfl
    | cons u us ih =>
      simp only [List.map_cons, List.filter_cons]
      have hphone : (if (u.phone == phone) = true then { u with password := newHash } else u).phone
          = u.phone := by split <;> rfl
      rw [hphone]
      by_cases hc : contacts.contains u.phone = true
      · rw [if_pos hc, if_pos hc]
        have hpub : toPublic
            (if (u.phone == phone) = true then { u with password := newHash } else u)
            = toPublic u := by split <;> rfl
        simp only [List.map_cons, hpub, ih]
      · rw [if_neg hc, if_neg hc]
        exact ih

/-- C8 witness: a registered and an unregistered candidate, and a
credential change that leaves the response unchanged. -/
theorem contactsSync_spec_inst :
    (∃ r ∈ contactsSync [⟨"p1", "Ann", "hash", none⟩] ["p1", "p9"], r.phone = "p1") ∧
    contactsSync (setPassword [⟨"p1", "Ann", "hash", none⟩] "p1" "newhash") ["p1", "p9"] =
      contactsSync [⟨"p1", "Ann", "hash", none⟩] ["p1", "p9"] := by
  have h := contactsSync_spec [⟨"p1", "Ann", "hash", none⟩] ["p1", "p9"]
  exact ⟨h.2.1 "p1" (by decide) ⟨"p1", "Ann", "hash", none⟩ (by decide) rfl,
    h.2.2 "p1" "newhash"⟩

end CampusDating
